import Mathlib

/-!
Verification of the tradingview-snapshot-worker service layer.

This file shallowly embeds the pure logic of the worker: the chart-img
adapter validation (src/libs/chart-img.ts), the chart domain service
(chart-service), the storage domain service (storage-service), the image
domain service (image-service) and the route-level error mapping
(src/routes/image.ts).  External I/O (the chart-img HTTP call, the R2
bucket) is abstracted: an HTTP call becomes an `Except` outcome passed in
as data, the R2 bucket becomes an explicit list of stored objects with the
R2 cursor/limit paging protocol modelled over it.  JavaScript exceptions
become `Except` values over an explicit error datatype; JavaScript strings
become `String`; JavaScript numbers used as sizes and dimensions become
`Int`/`Nat` (the code paths verified here never produce fractional
values).
-/

/-! ### JavaScript string primitives used by the source -/

/-- Model of `String.prototype.split` with a one-character separator:
splitting the empty string yields `[""]`, alike JavaScript. -/
def splitOnCharL (sep : Char) : List Char → List (List Char)
  | [] => [[]]
  | c :: rest =>
    let r := splitOnCharL sep rest
    if c == sep then [] :: r
    else
      match r with
      | [] => [[c]]
      | h :: t => (c :: h) :: t

/-- String-level wrapper of `splitOnCharL`. -/
def jsSplit (s : String) (sep : Char) : List String :=
  (splitOnCharL sep s.data).map String.mk

/-- Model of a needle being a prefix of a haystack (both as char lists). -/
def startsWithL : List Char → List Char → Bool
  | _, [] => true
  | [], _ :: _ => false
  | a :: as, b :: bs => a == b && startsWithL as bs

/-- String-level wrapper: `jsStartsWith s p` holds when `p` begins `s`. -/
def jsStartsWith (s p : String) : Bool :=
  startsWithL s.data p.data

/-- Model of a substring test (`String.prototype.includes` / regex without
anchors): the needle occurs contiguously somewhere in the haystack. -/
def hasInfixL (hay needle : List Char) : Bool :=
  startsWithL hay needle ||
    match hay with
    | [] => false
    | _ :: t => hasInfixL t needle

/-- String-level wrapper of `hasInfixL`. -/
def jsIncludes (s sub : String) : Bool :=
  hasInfixL s.data sub.data

/-- ASCII upper-casing, the effect of `String.prototype.toUpperCase` on the
ASCII strings this service compares. -/
def jsToUpper (s : String) : String :=
  String.mk (s.data.map Char.toUpper)

/-- JavaScript `x || default` for an optional string field: `undefined` and
the empty string are both falsy and fall back to the default. -/
def jsOrStr (v : Option String) (d : String) : String :=
  match v with
  | none => d
  | some s => if s == "" then d else s

/-- JavaScript `x || default` for a string already known to be present. -/
def jsOrStrD (s : String) (d : String) : String :=
  if s == "" then d else s

/-- JavaScript `x || default` for an optional numeric field: `undefined`
and `0` are falsy and fall back to the default. -/
def jsOrInt (v : Option Int) (d : Int) : Int :=
  match v with
  | none => d
  | some n => if n == 0 then d else n

/-- JavaScript `x || default` for an optional natural-number field. -/
def jsOrNat (v : Option Nat) (d : Nat) : Nat :=
  match v with
  | none => d
  | some n => if n == 0 then d else n

/-! ### Dates and `toISOString`

A `Date` is modelled by its broken-down UTC fields.  `JsDate.Valid` states
the ranges under which `Date.prototype.toISOString` prints the plain
24-character `YYYY-MM-DDTHH:MM:SS.mmmZ` form (years needing the expanded
six-digit form are outside it). -/

/-- The decimal digit characters, most significant first. -/
def digitChar (d : Nat) : Char :=
  match d with
  | 0 => '0'
  | 1 => '1'
  | 2 => '2'
  | 3 => '3'
  | 4 => '4'
  | 5 => '5'
  | 6 => '6'
  | 7 => '7'
  | 8 => '8'
  | _ => '9'

/-- Fuel-driven digit expansion: one digit per fuel step, so `fuel` above
the digit count yields the full decimal expansion. -/
def natDigitsGo : Nat → Nat → List Char
  | 0, _ => []
  | fuel + 1, n =>
    if n < 10 then [digitChar n]
    else natDigitsGo fuel (n / 10) ++ [digitChar (n % 10)]

/-- Decimal digit list of a natural number, most significant first. -/
def natDigits (n : Nat) : List Char :=
  natDigitsGo (n + 1) n

/-- Zero-pad a digit list on the left to the given width. -/
def padDigits (width : Nat) (l : List Char) : List Char :=
  List.replicate (width - l.length) '0' ++ l

/-- A decimal rendering of `n`, zero-padded to `width`. -/
def padNum (width n : Nat) : String :=
  String.mk (padDigits width (natDigits n))

/-- Broken-down UTC date, the model of a JavaScript `Date` value. -/
structure JsDate where
  year : Nat
  month : Nat
  day : Nat
  hour : Nat
  minute : Nat
  second : Nat
  millis : Nat
deriving DecidableEq, Repr

/-- The ranges under which `toISOString` prints the 24-character form. -/
def JsDate.Valid (d : JsDate) : Prop :=
  d.year ≤ 9999 ∧ d.month ≤ 12 ∧ d.day ≤ 31 ∧ d.hour ≤ 23 ∧
    d.minute ≤ 59 ∧ d.second ≤ 59 ∧ d.millis ≤ 999

instance (d : JsDate) : Decidable d.Valid := by
  unfold JsDate.Valid; infer_instance

/-- Model of `Date.prototype.toISOString` for dates in the plain range:
`YYYY-MM-DDTHH:MM:SS.mmmZ`. -/
def toISOString (d : JsDate) : String :=
  padNum 4 d.year ++ "-" ++ padNum 2 d.month ++ "-" ++ padNum 2 d.day ++
    "T" ++ padNum 2 d.hour ++ ":" ++ padNum 2 d.minute ++ ":" ++
    padNum 2 d.second ++ "." ++ padNum 3 d.millis ++ "Z"

/-! ### Error taxonomy (src/types/services.ts, src/types/chart-image.ts)

One datatype for every value the verified code paths can throw.  The first
five constructors model the named `Error` subclasses; `otherError` models
any other `Error` instance; `nonError` models a thrown non-`Error` value
(which carries no usable message). -/

inductive ThrownError where
  | chartImageValidation (message : String)
  | chartImageApi (message : String) (statusCode : Nat)
  | chartValidation (message : String)
  | chartGeneration (message : String)
  | storageUpload (message : String)
  | otherError (message : String)
  | nonError
deriving DecidableEq, Repr

/-- JavaScript `error instanceof Error ? error.message : "Unknown error"`. -/
def ThrownError.messageOrUnknown : ThrownError → String
  | .chartImageValidation m => m
  | .chartImageApi m _ => m
  | .chartValidation m => m
  | .chartGeneration m => m
  | .storageUpload m => m
  | .otherError m => m
  | .nonError => "Unknown error"

/-! ### Constants (src/constants/dex-screener.ts, solana files) -/

/-- CHART_CONFIG.maxSize from src/constants/dex-screener.ts. -/
def CHART_CONFIG.maxSize.width : Int := 1600

/-- CHART_CONFIG.maxSize.height from src/constants/dex-screener.ts. -/
def CHART_CONFIG.maxSize.height : Int := 1200

/-- isRestrictedSymbol: RESTRICTED_PATTERNS are the case-insensitive
regexes ^TEST:, ^DEMO:, ^FAKE: and SCAM (unanchored).  Case-insensitive
matching of these ASCII patterns is modelled by upper-casing the symbol. -/
def isRestrictedSymbol (symbol : String) : Bool :=
  let u := jsToUpper symbol
  jsStartsWith u "TEST:" || jsStartsWith u "DEMO:" || jsStartsWith u "FAKE:" ||
    jsIncludes u "SCAM"

/-- SUPPORTED_SOLANA_EXCHANGES: the names of the exchange records with
supported = true, in object insertion order. -/
def SUPPORTED_SOLANA_EXCHANGES : List String :=
  ["DRIFT", "RAYDIUM", "JUPITER", "MANGO", "PHOENIX"]

/-! ### Chart-IMG adapter (src/libs/chart-img.ts) -/

/-- ChartImageRequest from src/types/chart-image.ts; the theme is kept as
a string, checked by validateRequest against light/dark. -/
structure ChartImageRequest where
  symbol : String
  interval : String
  width : Int
  height : Int
  theme : String
deriving DecidableEq, Repr

/-- The fixed interval whitelist of ChartImageClient.isValidInterval. -/
def validIntervals : List String :=
  ["1", "3", "5", "15", "30", "45",
   "1H", "2H", "3H", "4H", "6H", "8H", "12H", "6h", "12h",
   "1D", "2D", "3D",
   "1W", "1M"]

/-- ChartImageClient.isValidInterval. -/
def isValidInterval (interval : String) : Bool :=
  validIntervals.contains interval

/-- One character of the adapter symbol class: letters, digits, underscore,
colon, dot, slash, dash (with the i flag, so lower-case letters too). -/
def isAdapterSymbolChar (c : Char) : Bool :=
  c.isAlphanum || c == '_' || c == ':' || c == '.' || c == '/' || c == '-'

/-- The test \x7b\x7d of /^slash dash class regex on a symbol: nonempty and every
character in the class. -/
def adapterSymbolOk (symbol : String) : Bool :=
  !symbol.data.isEmpty && symbol.data.all isAdapterSymbolChar

/-- ChartImageClient.validateRequest: the checks run in source order and
the first failing one throws a ChartImageValidationError.  The
`Number.isInteger` conjunct of the width/height checks is identically true
in this integer embedding. -/
def validateRequest (request : ChartImageRequest) : Except ThrownError Unit :=
  if request.symbol == "" then
    .error (.chartImageValidation "Symbol is required")
  else if !adapterSymbolOk request.symbol then
    .error (.chartImageValidation "Invalid symbol format")
  else if request.interval == "" then
    .error (.chartImageValidation "Interval is required")
  else if !isValidInterval request.interval then
    .error (.chartImageValidation ("Invalid interval: " ++ request.interval))
  else if request.width < 100 || request.width > 2000 then
    .error (.chartImageValidation "Width must be an integer between 100 and 2000")
  else if request.height < 100 || request.height > 2000 then
    .error (.chartImageValidation "Height must be an integer between 100 and 2000")
  else if !(request.theme == "light" || request.theme == "dark") then
    .error (.chartImageValidation "Theme must be light or dark")
  else
    .ok ()

/-- One character of the exchange group [A-Z0-9_] (i flag). -/
def isExchangeChar (c : Char) : Bool :=
  c.isAlphanum || c == '_'

/-- One character of the pair group: letters, digits, underscore, slash, dash (i flag). -/
def isPairChar (c : Char) : Bool :=
  c.isAlphanum || c == '_' || c == '/' || c == '-'

/-- Result of ChartImageClient.validateSymbolFormat. -/
structure SymbolFormatResult where
  isValid : Bool
  exchange : Option String
  pair : Option String
deriving DecidableEq, Repr

/-- ChartImageClient.validateSymbolFormat: the match of
the symbol regex: an exchange group then a colon then a pair group.  Neither group can hold a colon, so the
regex matches exactly when the symbol splits at a single colon into a
nonempty exchange over letters, digits and underscore and a nonempty pair
over letters, digits, underscore, slash and dash. -/
def validateSymbolFormat (symbol : String) : SymbolFormatResult :=
  match jsSplit symbol ':' with
  | [ex, pair] =>
    if !ex.data.isEmpty && ex.data.all isExchangeChar &&
        !pair.data.isEmpty && pair.data.all isPairChar then
      { isValid := true, exchange := some ex, pair := some pair }
    else
      { isValid := false, exchange := none, pair := none }
  | _ => { isValid := false, exchange := none, pair := none }

/-- The outcome of the chart-img HTTP round trip (makeApiRequest plus
reading the body): abstracted as data, since the network is outside the
embedding.  A failure is the error makeApiRequest would throw. -/
structure ProviderImage where
  size : Nat
  contentType : String
deriving DecidableEq, Repr

/-- ChartImageClient.generateChartImage: validate, then perform the
(abstracted) API call; a ChartImageApiError from the call is rethrown
as is, any other failure is wrapped into a ChartImageApiError with
status 500. -/
def generateChartImage (request : ChartImageRequest)
    (provider : Except ThrownError ProviderImage) :
    Except ThrownError ProviderImage :=
  match validateRequest request with
  | .error e => .error e
  | .ok _ =>
    match provider with
    | .ok r => .ok r
    | .error (.chartImageApi m s) => .error (.chartImageApi m s)
    | .error e =>
      .error (.chartImageApi ("Chart image generation failed: " ++ e.messageOrUnknown) 500)

/-! ### Chart domain service (src/services/chart-service.ts) -/

/-- ChartSnapshotRequest from src/types/chart.ts. -/
structure ChartSnapshotRequest where
  symbol : String
  interval : String
  width : Int
  height : Int
  theme : String
deriving DecidableEq, Repr

/-- Metadata attached to a generation result. -/
structure GenerationMetadata where
  symbol : String
  interval : String
  width : Int
  height : Int
  theme : String
  generatedAt : JsDate
deriving DecidableEq, Repr

/-- ChartGenerationResult from src/types/services.ts; the image buffer is
abstracted to its byte length. -/
structure ChartGenerationResult where
  imageSize : Nat
  contentType : String
  metadata : GenerationMetadata
deriving DecidableEq, Repr

/-- ChartService.validateSolanaSymbol: destructure the first two pieces of
symbol.split later, reject when either is missing or empty, then require
the upper-cased exchange to be a supported Solana exchange. -/
def validateSolanaSymbol (symbol : String) : Except ThrownError Unit :=
  let parts := jsSplit symbol ':'
  let exchange := parts.getD 0 ""
  let pair := parts.getD 1 ""
  if exchange == "" || pair == "" then
    .error (.chartValidation
      ("Invalid symbol format: " ++ symbol ++ ". Expected format: EXCHANGE:PAIR"))
  else if !SUPPORTED_SOLANA_EXCHANGES.contains (jsToUpper exchange) then
    .error (.chartValidation
      ("Unsupported exchange: " ++ exchange ++ ". Supported exchanges: " ++
        String.intercalate ", " SUPPORTED_SOLANA_EXCHANGES))
  else
    .ok ()

/-- The pixel-budget guard of ChartService.validateBusinessRules: the
request exceeds the budget when width times height is above
maxSize.width times maxSize.height. -/
def pixelBudgetExceeded (request : ChartSnapshotRequest) : Bool :=
  let pixelCount := request.width * request.height
  let maxPixelCount := CHART_CONFIG.maxSize.width * CHART_CONFIG.maxSize.height
  pixelCount > maxPixelCount

/-- ChartService.validateBusinessRules: symbol format via the adapter,
restricted-symbol blocklist, pixel budget, then Solana exchange check.
Every failure is a ChartValidationError. -/
def validateBusinessRules (request : ChartSnapshotRequest) : Except ThrownError Unit :=
  if !(validateSymbolFormat request.symbol).isValid then
    .error (.chartValidation
      ("Invalid symbol format: " ++ request.symbol ++
        ". Expected format for Solana DEX: DRIFT:SOL-PERP, RAYDIUM:SOL/USDC, etc."))
  else if isRestrictedSymbol request.symbol then
    .error (.chartValidation ("Symbol " ++ request.symbol ++ " is not supported"))
  else if pixelBudgetExceeded request then
    .error (.chartValidation
      ("Image size is too large. Maximum pixel count is " ++
        toString (CHART_CONFIG.maxSize.width * CHART_CONFIG.maxSize.height)))
  else
    validateSolanaSymbol request.symbol

/-- ChartService.mapToChartImageRequest. -/
def mapToChartImageRequest (request : ChartSnapshotRequest) : ChartImageRequest :=
  { symbol := request.symbol, interval := request.interval,
    width := request.width, height := request.height, theme := request.theme }

/-- ChartService.createSnapshot: inside the try block, business validation
then the adapter call; the catch block rewraps a ChartImageValidationError
as a ChartValidationError and wraps every other failure - including a
ChartValidationError thrown by validateBusinessRules itself - into a
ChartGenerationError.  `now` is the Date the metadata records;
`provider` is the abstracted HTTP outcome. -/
def createSnapshot (request : ChartSnapshotRequest)
    (provider : Except ThrownError ProviderImage) (now : JsDate) :
    Except ThrownError ChartGenerationResult :=
  let inner : Except ThrownError ChartGenerationResult :=
    match validateBusinessRules request with
    | .error e => .error e
    | .ok _ =>
      match generateChartImage (mapToChartImageRequest request) provider with
      | .error e => .error e
      | .ok chartResult =>
        .ok { imageSize := chartResult.size, contentType := chartResult.contentType,
              metadata :=
                { symbol := request.symbol, interval := request.interval,
                  width := request.width, height := request.height,
                  theme := request.theme, generatedAt := now } }
  match inner with
  | .ok r => .ok r
  | .error (.chartImageValidation m) => .error (.chartValidation m)
  | .error e =>
    .error (.chartGeneration ("Chart snapshot creation failed: " ++ e.messageOrUnknown))

/-! ### Storage domain service (src/services/storage-service.ts) -/

/-- The metadata argument of uploadChartImage / generateFileName. -/
structure UploadMeta where
  interval : String
  theme : String
  width : Int
  height : Int
  generatedAt : JsDate
deriving DecidableEq, Repr

/-- The global regex replace of colons and dots by dashes applied to the
ISO timestamp. -/
def replaceColonsDots (s : String) : String :=
  String.mk (s.data.map fun c => if c == ':' || c == '.' then '-' else c)

/-- The global regex replace of every character outside A-Z a-z 0-9 by an
underscore, applied to the symbol. -/
def replaceNonAlphanum (s : String) : String :=
  String.mk (s.data.map fun c => if c.isAlphanum then c else '_')

/-- StorageService.generateFileName: charts/ then the cleaned timestamp,
cleaned symbol, interval, theme and dimensions, dot png. -/
def StorageService.generateFileName (symbol : String) (metadata : UploadMeta) : String :=
  let timestamp := replaceColonsDots (toISOString metadata.generatedAt)
  let cleanSymbol := replaceNonAlphanum symbol
  let dimensions := toString metadata.width ++ "x" ++ toString metadata.height
  "charts/" ++ timestamp ++ "_" ++ cleanSymbol ++ "_" ++ metadata.interval ++ "_" ++
    metadata.theme ++ "_" ++ dimensions ++ ".png"

/-- StorageService.getSymbolPrefix: charts/ then the cleaned symbol. -/
def StorageService.getSymbolPrefix (symbol : String) : String :=
  "charts/" ++ replaceNonAlphanum symbol

/-- StorageService.buildPublicUrl. -/
def buildPublicUrl (customDomain key : String) : String :=
  "https://" ++ customDomain ++ "/" ++ key

/-- StorageService.buildStorageMetadata: the custom-metadata record sent
with an upload, as a string-keyed association list in insertion order. -/
def buildStorageMetadata (symbol : String) (metadata : UploadMeta) :
    List (String × String) :=
  [("symbol", symbol),
   ("interval", metadata.interval),
   ("theme", metadata.theme),
   ("dimensions", toString metadata.width ++ "x" ++ toString metadata.height),
   ("generatedAt", toISOString metadata.generatedAt),
   ("version", "1.0")]

/-- StorageMetadata from src/types/services.ts. -/
structure StorageMetadata where
  symbol : String
  interval : String
  theme : String
  dimensions : String
  generatedAt : String
deriving DecidableEq, Repr

/-- StorageService.parseStorageMetadata: absent custom metadata parses to
undefined; otherwise the five fields are read and the record is rejected
whenever any of them is falsy, that is missing or the empty string. -/
def parseStorageMetadata (customMetadata : Option (List (String × String))) :
    Option StorageMetadata :=
  match customMetadata with
  | none => none
  | some md =>
    let symbol := (md.lookup "symbol").getD ""
    let interval := (md.lookup "interval").getD ""
    let theme := (md.lookup "theme").getD ""
    let dimensions := (md.lookup "dimensions").getD ""
    let generatedAt := (md.lookup "generatedAt").getD ""
    if symbol == "" || interval == "" || theme == "" || dimensions == "" ||
        generatedAt == "" then
      none
    else
      some { symbol, interval, theme, dimensions, generatedAt }

/-- An object at rest in the R2 bucket: key, byte size, entity tag, upload
time both as a date and as epoch milliseconds (for cutoff comparisons),
and the custom metadata it was stored with. -/
structure StoredObject where
  key : String
  size : Nat
  etag : String
  uploadedMs : Int
  uploadedAt : JsDate
  customMetadata : Option (List (String × String))
deriving DecidableEq, Repr

/-- A page returned by the R2 list model. -/
structure ListPage where
  objects : List StoredObject
  truncated : Bool
  cursor : Option Nat
deriving DecidableEq, Repr

/-- Model of R2Client.listObjects over bucket contents given as a list:
an opaque cursor is an index into the (prefix-filtered) key sequence, a
page is the next `limit` objects, and the cursor is returned only while
the listing is truncated. -/
def listObjectsModel (store : List StoredObject) (pfx : Option String)
    (limit : Nat) (cursor : Option Nat) : ListPage :=
  let filtered :=
    match pfx with
    | none => store
    | some p => store.filter fun o => jsStartsWith o.key p
  let start := cursor.getD 0
  let objects := (filtered.drop start).take limit
  let truncated := decide (start + limit < filtered.length)
  { objects, truncated, cursor := if start + limit < filtered.length then some (start + limit) else none }

/-- The outcome of one R2 put, abstracted: R2 echoes the key back and
reports etag, size and upload time. -/
structure R2PutResult where
  etag : String
  size : Nat
  uploadedAt : JsDate
deriving DecidableEq, Repr

/-- UploadResult from src/types/services.ts. -/
structure UploadResult where
  fileName : String
  publicUrl : String
  uploadedAt : String
  size : Nat
  etag : String
deriving DecidableEq, Repr

/-- StorageService.uploadChartImage: derive the key, build the custom
metadata, upload through the adapter (abstracted outcome), and either map
the result into an UploadResult or wrap the failure into a
StorageUploadError. -/
def uploadChartImage (symbol : String) (metadata : UploadMeta)
    (putOutcome : Except ThrownError R2PutResult) (customDomain : String) :
    Except ThrownError UploadResult :=
  let fileName := StorageService.generateFileName symbol metadata
  match putOutcome with
  | .ok r =>
    .ok { fileName := fileName, publicUrl := buildPublicUrl customDomain fileName,
          uploadedAt := toISOString r.uploadedAt, size := r.size, etag := r.etag }
  | .error e =>
    .error (.storageUpload ("Failed to upload chart image: " ++ e.messageOrUnknown))

/-- The object uploadChartImage stores when the put succeeds: the derived
key carries the built custom metadata. -/
def uploadedObject (symbol : String) (metadata : UploadMeta) (size : Nat)
    (etag : String) (uploadedMs : Int) (uploadedAt : JsDate) : StoredObject :=
  { key := StorageService.generateFileName symbol metadata, size := size,
    etag := etag, uploadedMs := uploadedMs, uploadedAt := uploadedAt,
    customMetadata := some (buildStorageMetadata symbol metadata) }

/-- One image view model of StorageService.listChartImages. -/
structure ListedImage where
  fileName : String
  publicUrl : String
  size : Nat
  uploadedAt : String
  metadata : Option StorageMetadata
deriving DecidableEq, Repr

/-- The result of StorageService.listChartImages. -/
structure ListImagesResult where
  images : List ListedImage
  hasMore : Bool
  nextCursor : Option Nat
deriving DecidableEq, Repr

/-- StorageService.listChartImages: prefix from the optional symbol via
getSymbolPrefix, limit defaulted to 50, one R2 list page mapped onto view
models. -/
def listChartImages (store : List StoredObject) (customDomain : String)
    (symbol : Option String) (limit : Option Nat) (cursor : Option Nat) :
    ListImagesResult :=
  let pfx := symbol.map StorageService.getSymbolPrefix
  let listResult := listObjectsModel store pfx (jsOrNat limit 50) cursor
  { images := listResult.objects.map fun o =>
      { fileName := o.key, publicUrl := buildPublicUrl customDomain o.key,
        size := o.size, uploadedAt := toISOString o.uploadedAt,
        metadata := parseStorageMetadata o.customMetadata },
    hasMore := listResult.truncated,
    nextCursor := listResult.cursor }

/-- The number of milliseconds in a day. -/
def msPerDay : Int := 86400000

/-- The page loop of StorageService.cleanupOldImages, starting at the
given cursor position: list a page of 1000, keep the keys uploaded
strictly before the cutoff, delete them, and continue while a cursor is
returned.  The result is the running deleted count and every deleted key
in deletion order. -/
def cleanupFrom (store : List StoredObject) (cutoff : Int) (start : Nat) :
    Nat × List String :=
  let listResult := listObjectsModel store none 1000 (some start)
  let old := listResult.objects.filter fun o => decide (o.uploadedMs < cutoff)
  if _h : start + 1000 < store.length then
    let rest := cleanupFrom store cutoff (start + 1000)
    (old.length + rest.1, old.map (fun o => o.key) ++ rest.2)
  else
    (old.length, old.map fun o => o.key)
termination_by store.length - start
decreasing_by omega

/-- StorageService.cleanupOldImages: the cutoff is now minus the requested
number of days (the runtime clock is UTC, so setDate amounts to
subtracting whole days of milliseconds), then the page loop runs from the
start of the listing. -/
def cleanupOldImages (store : List StoredObject) (nowMs : Int)
    (olderThanDays : Int) : Nat × List String :=
  let cutoff := nowMs - olderThanDays * msPerDay
  cleanupFrom store cutoff 0

/-! ### Image domain service (src/services/image-service.ts) -/

/-- ImageDetails from src/types/services.ts.  getImageList always sets
etag to the empty string. -/
structure ImageDetails where
  fileName : String
  size : Nat
  uploadedAt : String
  publicUrl : String
  metadata : Option StorageMetadata
  etag : String
deriving DecidableEq, Repr

/-- The sortBy values of ImageListOptions. -/
inductive SortBy where
  | uploadedAt
  | symbol
  | size
deriving DecidableEq, Repr

/-- The sortOrder values of ImageListOptions. -/
inductive SortOrder where
  | asc
  | desc
deriving DecidableEq, Repr

/-- The three-way comparison the JavaScript comparator builds from `<` and
`>` on two numbers. -/
def natCompareJs (x y : Nat) : Int :=
  if x < y then -1 else if y < x then 1 else 0

/-- The three-way comparison the JavaScript comparator builds from `<` and
`>` on two strings: lexicographic, which on the ASCII strings compared
here agrees with the UTF-16 code-unit order JavaScript uses. -/
def strCompareJs (x y : String) : Int :=
  if x < y then -1 else if y < x then 1 else 0

/-- The per-key comparison of ImageService.sortImages.  For uploadedAt the
source compares Date.getTime values of the ISO timestamps; all timestamps
this service stores share the fixed-width 24-character ISO form, on which
the chronological order is the lexicographic order used here. -/
def imageCompare (sortBy : SortBy) (a b : ImageDetails) : Int :=
  match sortBy with
  | .uploadedAt => strCompareJs a.uploadedAt b.uploadedAt
  | .symbol =>
    strCompareJs ((a.metadata.map StorageMetadata.symbol).getD "")
      ((b.metadata.map StorageMetadata.symbol).getD "")
  | .size => natCompareJs a.size b.size

/-- The signed comparator of ImageService.sortImages: the three-way
comparison, negated for descending order. -/
def imageComparator (sortBy : SortBy) (sortOrder : SortOrder)
    (a b : ImageDetails) : Int :=
  match sortOrder with
  | .asc => imageCompare sortBy a b
  | .desc => -(imageCompare sortBy a b)

/-- ImageService.sortImages: Array.prototype.sort is stable (ECMAScript
2019) and this comparator is consistent, so the result is the unique
stable order; it is modelled by the stable insertion sort over the
relation "comparator at most zero". -/
def sortImages (images : List ImageDetails) (sortBy : SortBy)
    (sortOrder : SortOrder) : List ImageDetails :=
  List.insertionSort (fun a b => imageComparator sortBy sortOrder a b ≤ 0) images

/-- ImageListOptions from src/types/services.ts. -/
structure ImageListOptions where
  symbol : Option String
  limit : Option Nat
  cursor : Option Nat
  sortBy : Option SortBy
  sortOrder : Option SortOrder
deriving DecidableEq, Repr

/-- The result of ImageService.getImageList. -/
structure ImageListResult where
  images : List ImageDetails
  hasMore : Bool
  nextCursor : Option Nat
deriving DecidableEq, Repr

/-- ImageService.getImageList: list a storage page (limit defaulted to
20), map the view models into ImageDetails with an empty etag, and sort
only when sortBy is given, with sortOrder defaulted to descending. -/
def getImageList (store : List StoredObject) (customDomain : String)
    (options : ImageListOptions) : ImageListResult :=
  let result := listChartImages store customDomain options.symbol
    (some (jsOrNat options.limit 20)) options.cursor
  let images : List ImageDetails := result.images.map fun img =>
    { fileName := img.fileName, size := img.size, uploadedAt := img.uploadedAt,
      publicUrl := img.publicUrl, metadata := img.metadata, etag := "" }
  let images :=
    match options.sortBy with
    | none => images
    | some sb => sortImages images sb (options.sortOrder.getD .desc)
  { images, hasMore := result.hasMore, nextCursor := result.nextCursor }

/-- The bucket objects a symbol filter selects: the prefix-filtered
listing the storage layer pages over. -/
def matchedObjects (store : List StoredObject) (symbol : Option String) :
    List StoredObject :=
  match symbol.map StorageService.getSymbolPrefix with
  | none => store
  | some p => store.filter fun o => jsStartsWith o.key p

/-- The collection loop of ImageService.getImageStatistics: page through
getImageList with limit 1000 from the given cursor position, concatenating
every page, while a next cursor is returned. -/
def collectAllImages (store : List StoredObject) (customDomain : String)
    (symbol : Option String) (start : Nat) : List ImageDetails :=
  let result := getImageList store customDomain
    { symbol := symbol, limit := some 1000, cursor := some start,
      sortBy := none, sortOrder := none }
  if _h : start + 1000 < (matchedObjects store symbol).length then
    result.images ++ collectAllImages store customDomain symbol (start + 1000)
  else
    result.images
termination_by (matchedObjects store symbol).length - start
decreasing_by omega

/-- JavaScript object-literal counting `m[k] = (m[k] || 0) + 1`: bump the
count under a key, appending the key on first sight (object insertion
order). -/
def bumpCount (m : List (String × Nat)) (k : String) : List (String × Nat) :=
  match m with
  | [] => [(k, 1)]
  | (k2, v) :: rest =>
    if k2 == k then (k2, v + 1) :: rest else (k2, v) :: bumpCount rest k

/-- Math.round of the exact ratio num over den (den positive): floor of
the ratio plus one half, the round-half-up JavaScript computes. -/
def jsMathRound (num den : Nat) : Nat :=
  (2 * num + den) / (2 * den)

/-- The statistics record of ImageService.getImageStatistics. -/
structure ImageStatistics where
  totalImages : Nat
  totalSize : Nat
  averageSize : Nat
  latestImage : Option ImageDetails
  oldestImage : Option ImageDetails
  byTheme : List (String × Nat)
  byInterval : List (String × Nat)
deriving DecidableEq, Repr

/-- ImageService.getImageStatistics: collect every matching image through
the page loop; with none, return the all-zero record (averageSize is
defined as 0 here, with no division); otherwise total, round the average,
count per theme and per interval over the images carrying metadata, and
pick latest and oldest from a date-descending stable sort. -/
def getImageStatistics (store : List StoredObject) (customDomain : String)
    (symbol : Option String) : ImageStatistics :=
  let allImages := collectAllImages store customDomain symbol 0
  if allImages.isEmpty then
    { totalImages := 0, totalSize := 0, averageSize := 0,
      latestImage := none, oldestImage := none, byTheme := [], byInterval := [] }
  else
    let totalSize := allImages.foldl (fun sum img => sum + img.size) 0
    let averageSize := jsMathRound totalSize allImages.length
    let counts := allImages.foldl
      (fun (acc : List (String × Nat) × List (String × Nat)) img =>
        match img.metadata with
        | some md => (bumpCount acc.1 md.theme, bumpCount acc.2 md.interval)
        | none => acc)
      ([], [])
    let sortedByDate := List.insertionSort
      (fun a b : ImageDetails => strCompareJs b.uploadedAt a.uploadedAt ≤ 0) allImages
    { totalImages := allImages.length, totalSize := totalSize,
      averageSize := averageSize,
      latestImage := sortedByDate.head?, oldestImage := sortedByDate.getLast?,
      byTheme := counts.1, byInterval := counts.2 }

/-! ### Route layer (src/routes/image.ts) -/

/-- The raw JSON body of POST image, every field optional. -/
structure PostBody where
  symbol : Option String
  interval : Option String
  width : Option Int
  height : Option Int
  theme : Option String
deriving DecidableEq, Repr

/-- ChartSnapshotOptions after the per-field defaulting the route handler
performs on the parsed body. -/
structure ChartSnapshotOptions where
  symbol : String
  interval : String
  width : Int
  height : Int
  theme : String
deriving DecidableEq, Repr

/-- The defaulting of the POST handler: absent or falsy fields fall back
to BINANCE:BTCUSDT, 1D, 800, 600, dark. -/
def applyBodyDefaults (body : PostBody) : ChartSnapshotOptions :=
  { symbol := jsOrStr body.symbol "BINANCE:BTCUSDT",
    interval := jsOrStr body.interval "1D",
    width := jsOrInt body.width 800,
    height := jsOrInt body.height 600,
    theme := jsOrStr body.theme "dark" }

/-- JavaScript `n || default` on a number known to be present. -/
def jsOrIntD (n d : Int) : Int :=
  if n == 0 then d else n

/-- createChartRequest from src/routes/image.ts: the same falsy-field
defaulting applied once more to the already defaulted options. -/
def createChartRequest (options : ChartSnapshotOptions) : ChartSnapshotRequest :=
  { symbol := jsOrStrD options.symbol "BINANCE:BTCUSDT",
    interval := jsOrStrD options.interval "1D",
    width := jsOrIntD options.width 800,
    height := jsOrIntD options.height 600,
    theme := jsOrStrD options.theme "dark" }

/-- handleError from src/routes/image.ts: the instanceof ladder mapping a
thrown value to the response message and status code. -/
def handleError (error : ThrownError) : String × Nat :=
  match error with
  | .chartValidation m => (m, 400)
  | .chartGeneration m => (m, 502)
  | .storageUpload _ => ("Failed to store chart image", 503)
  | .chartImageValidation m => (m, 500)
  | .chartImageApi m _ => (m, 500)
  | .otherError m => (m, 500)
  | .nonError => ("Unknown error", 500)

/-- The observable response of the POST image handler: HTTP status, the
success flag, and the error message or the uploaded file data. -/
structure RouteResponse where
  status : Nat
  success : Bool
  error : Option String
  fileName : Option String
  publicUrl : Option String
deriving DecidableEq, Repr

/-- The try block of the POST image handler with the environment
configured: default the body, build the chart request, create the
snapshot, then upload it. -/
def postImagePipeline (body : PostBody)
    (provider : Except ThrownError ProviderImage)
    (putOutcome : Except ThrownError R2PutResult) (now : JsDate)
    (customDomain : String) : Except ThrownError UploadResult :=
  let options := applyBodyDefaults body
  let chartRequest := createChartRequest options
  match createSnapshot chartRequest provider now with
  | .error e => .error e
  | .ok chartResult =>
    uploadChartImage chartRequest.symbol
      { interval := chartRequest.interval, theme := chartRequest.theme,
        width := chartRequest.width, height := chartRequest.height,
        generatedAt := chartResult.metadata.generatedAt }
      putOutcome customDomain

/-- The POST image handler with the environment configured: answer 200
with the upload data, or map the thrown error through handleError into a
failure body. -/
def postImage (body : PostBody) (provider : Except ThrownError ProviderImage)
    (putOutcome : Except ThrownError R2PutResult) (now : JsDate)
    (customDomain : String) : RouteResponse :=
  match postImagePipeline body provider putOutcome now customDomain with
  | .ok uploadResult =>
    { status := 200, success := true, error := none,
      fileName := some uploadResult.fileName,
      publicUrl := some uploadResult.publicUrl }
  | .error e =>
    let mapped := handleError e
    { status := mapped.2, success := false, error := some mapped.1,
      fileName := none, publicUrl := none }

/-! ### Helper lemmas -/

/-- startsWithL decides list prefixing. -/
theorem startsWithL_iff (l p : List Char) : startsWithL l p = true ↔ p <+: l := by
  induction p generalizing l with
  | nil => simp [startsWithL]
  | cons b bs ih =>
    cases l with
    | nil => simp [startsWithL]
    | cons a as =>
      rw [List.cons_prefix_cons]
      simp only [startsWithL, Bool.and_eq_true, beq_iff_eq, ih]
      exact and_congr_left fun _ => eq_comm

/-- A shared prefix cancels on both sides of a list prefix test. -/
theorem startsWithL_append_same (l xs ys : List Char) :
    startsWithL (l ++ xs) (l ++ ys) = startsWithL xs ys := by
  induction l with
  | nil => rfl
  | cons a as ih => simp [startsWithL, ih]

/-- natDigits never returns the empty list. -/
theorem natDigits_ne_nil (n : Nat) : natDigits n ≠ [] := by
  unfold natDigits natDigitsGo
  split
  · simp
  · intro h
    exact absurd (List.append_eq_nil.mp h).2 (by simp)

/-- Every digitChar is one of the ten digits. -/
theorem digitChar_mem_digit (d : Nat) : digitChar d ∈ "0123456789".data := by
  unfold digitChar
  split <;> decide

/-- Every character natDigitsGo produces is one of the ten digits. -/
theorem natDigitsGo_mem_digit (fuel : Nat) :
    ∀ n, ∀ c ∈ natDigitsGo fuel n, c ∈ "0123456789".data := by
  induction fuel with
  | zero => intro n c hc; simp [natDigitsGo] at hc
  | succ fuel ih =>
    intro n c hc
    unfold natDigitsGo at hc
    split at hc
    · rcases List.mem_singleton.mp hc with rfl
      exact digitChar_mem_digit n
    · rcases List.mem_append.mp hc with h | h
      · exact ih (n / 10) c h
      · rcases List.mem_singleton.mp h with rfl
        exact digitChar_mem_digit (n % 10)

/-- Every character natDigits produces is one of the ten digits. -/
theorem natDigits_mem_digit (n : Nat) : ∀ c ∈ natDigits n, c ∈ "0123456789".data :=
  natDigitsGo_mem_digit (n + 1) n

/-- natDigitsGo of a number below ten to the k plus one has at most k
plus one digits, whatever the fuel. -/
theorem natDigitsGo_length_le (k : Nat) :
    ∀ fuel n, n < 10 ^ (k + 1) → (natDigitsGo fuel n).length ≤ k + 1 := by
  induction k with
  | zero =>
    intro fuel n h
    cases fuel with
    | zero => simp [natDigitsGo]
    | succ fuel =>
      unfold natDigitsGo
      rw [if_pos (by simpa using h)]
      simp
  | succ k ih =>
    intro fuel n h
    cases fuel with
    | zero => simp [natDigitsGo]
    | succ fuel =>
      unfold natDigitsGo
      split
      · simp
      · have hdiv : n / 10 < 10 ^ (k + 1) := by
          rw [Nat.div_lt_iff_lt_mul (by omega)]
          calc n < 10 ^ (k + 2) := h
          _ = 10 ^ (k + 1) * 10 := by ring
        have := ih fuel (n / 10) hdiv
        simp only [List.length_append, List.length_singleton]
        omega

/-- natDigits of a number below ten to the k plus one has at most k plus
one digits. -/
theorem natDigits_length_le (k n : Nat) (h : n < 10 ^ (k + 1)) :
    (natDigits n).length ≤ k + 1 :=
  natDigitsGo_length_le k (n + 1) n h

/-! ### C7: route-level error mapping -/

/-- C7: the POST image error mapping: a ChartValidationError yields 400
with its message, a ChartGenerationError 502 with its message, a
StorageUploadError 503, any other Error 500 with its message passed
through, a thrown non-Error 500 with a generic message; and whenever the
handler pipeline throws, the response body is success false with the
mapped error message. -/
theorem postImageErrorMapping :
    (∀ m, handleError (.chartValidation m) = (m, 400)) ∧
    (∀ m, handleError (.chartGeneration m) = (m, 502)) ∧
    (∀ m, (handleError (.storageUpload m)).2 = 503) ∧
    (∀ m, handleError (.otherError m) = (m, 500)) ∧
    (∀ m, handleError (.chartImageValidation m) = (m, 500)) ∧
    (∀ m c, handleError (.chartImageApi m c) = (m, 500)) ∧
    handleError .nonError = ("Unknown error", 500) ∧
    (∀ body provider putOutcome now customDomain e,
      postImagePipeline body provider putOutcome now customDomain = .error e →
      postImage body provider putOutcome now customDomain =
        { status := (handleError e).2, success := false,
          error := some (handleError e).1,
          fileName := none, publicUrl := none }) := by
  refine ⟨fun m => rfl, fun m => rfl, fun m => rfl, fun m => rfl, fun m => rfl,
    fun m c => rfl, rfl, ?_⟩
  intro body provider putOutcome now customDomain e h
  unfold postImage
  rw [h]

/-- Witness for C7: the pipeline of a blocklisted symbol throws, and the
handler answers with the mapped status and message in a success-false
body. -/
theorem postImageErrorMapping_witness :
    postImage
      { symbol := some "TEST:FOO", interval := none, width := none,
        height := none, theme := none }
      (.error .nonError) (.error .nonError)
      { year := 2024, month := 1, day := 2, hour := 3, minute := 4,
        second := 5, millis := 6 } "cdn.example.com" =
      { status := 502, success := false,
        error := some "Chart snapshot creation failed: Symbol TEST:FOO is not supported",
        fileName := none, publicUrl := none } :=
  postImageErrorMapping.2.2.2.2.2.2.2
    { symbol := some "TEST:FOO", interval := none, width := none,
      height := none, theme := none }
    (.error .nonError) (.error .nonError)
    { year := 2024, month := 1, day := 2, hour := 3, minute := 4,
      second := 5, millis := 6 } "cdn.example.com"
    (.chartGeneration "Chart snapshot creation failed: Symbol TEST:FOO is not supported")
    (by rfl)

/-! ### C3: pixel budget -/

/-- C3: with width and height inside the adapter per-dimension bounds, a
pixel count at most the configured budget (maxSize.width times
maxSize.height) passes the pixel-budget check, and a pixel count at least
one over the budget makes validateBusinessRules fail with a validation
error. -/
theorem pixelBudgetBoundary (request : ChartSnapshotRequest)
    (hw1 : 100 ≤ request.width) (hw2 : request.width ≤ 2000)
    (hh1 : 100 ≤ request.height) (hh2 : request.height ≤ 2000) :
    (request.width * request.height ≤
        CHART_CONFIG.maxSize.width * CHART_CONFIG.maxSize.height →
      pixelBudgetExceeded request = false) ∧
    (CHART_CONFIG.maxSize.width * CHART_CONFIG.maxSize.height <
        request.width * request.height →
      ∃ m, validateBusinessRules request = .error (.chartValidation m)) := by
  constructor
  · intro h
    simp only [pixelBudgetExceeded, decide_eq_false_iff_not, not_lt]
    exact h
  · intro h
    unfold validateBusinessRules
    split
    · exact ⟨_, rfl⟩
    · split
      · exact ⟨_, rfl⟩
      · split
        · exact ⟨_, rfl⟩
        · rename_i hpx
          exact absurd (by simpa [pixelBudgetExceeded] using h) hpx

/-- Witness for C3: 1600 by 1200 sits exactly at the budget and passes the
pixel check; 1601 by 1200 is over it and fails validation. -/
theorem pixelBudgetBoundary_witness :
    pixelBudgetExceeded
      { symbol := "RAYDIUM:SOL/USDC", interval := "1D", width := 1600,
        height := 1200, theme := "dark" } = false ∧
    ∃ m, validateBusinessRules
      { symbol := "RAYDIUM:SOL/USDC", interval := "1D", width := 1601,
        height := 1200, theme := "dark" } = .error (.chartValidation m) :=
  ⟨(pixelBudgetBoundary _ (by decide) (by decide) (by decide) (by decide)).1
      (by decide),
   (pixelBudgetBoundary
      { symbol := "RAYDIUM:SOL/USDC", interval := "1D", width := 1601,
        height := 1200, theme := "dark" }
      (by decide) (by decide) (by decide) (by decide)).2 (by decide)⟩

/-! ### C10: statistics over an empty store -/

/-- With no matching object, one page is fetched, it is empty, and the
collection loop stops. -/
theorem collectAllImages_nil (store : List StoredObject) (customDomain : String)
    (symbol : Option String) (h : matchedObjects store symbol = []) :
    collectAllImages store customDomain symbol 0 = [] := by
  unfold collectAllImages
  rw [h]
  simp only [List.length_nil]
  rw [dif_neg (by omega)]
  unfold getImageList listChartImages listObjectsModel
  cases symbol with
  | none =>
    have hs : store = [] := h
    simp [hs, matchedObjects]
  | some s =>
    have hs : store.filter
        (fun o => jsStartsWith o.key (StorageService.getSymbolPrefix s)) = [] := h
    simp [matchedObjects, hs]

/-- C10: over a store with zero matching objects getImageStatistics
returns the all-zero record: no images, zero sizes, averageSize defined
as 0 with no division performed, and empty theme and interval
breakdowns. -/
theorem statisticsOverEmptyStore (store : List StoredObject)
    (customDomain : String) (symbol : Option String)
    (h : matchedObjects store symbol = []) :
    getImageStatistics store customDomain symbol =
      { totalImages := 0, totalSize := 0, averageSize := 0,
        latestImage := none, oldestImage := none,
        byTheme := [], byInterval := [] } := by
  unfold getImageStatistics
  rw [collectAllImages_nil store customDomain symbol h]
  rfl

/-- Witness for C10: the empty bucket. -/
theorem statisticsOverEmptyStore_witness :
    getImageStatistics [] "cdn.example.com" none =
      { totalImages := 0, totalSize := 0, averageSize := 0,
        latestImage := none, oldestImage := none,
        byTheme := [], byInterval := [] } :=
  statisticsOverEmptyStore [] "cdn.example.com" none (by rfl)

/-! ### C6: cleanup of old images -/

/-- The cleanup page loop from any cursor position deletes exactly the
objects past that position whose upload time is strictly before the
cutoff, in listing order, and counts them. -/
theorem cleanupFrom_eq (store : List StoredObject) (cutoff : Int) (start : Nat) :
    cleanupFrom store cutoff start =
      (((store.drop start).filter fun o => decide (o.uploadedMs < cutoff)).length,
       ((store.drop start).filter fun o => decide (o.uploadedMs < cutoff)).map
         fun o => o.key) := by
  suffices H : ∀ fuel s, store.length - s ≤ fuel →
      cleanupFrom store cutoff s =
        (((store.drop s).filter fun o => decide (o.uploadedMs < cutoff)).length,
         ((store.drop s).filter fun o => decide (o.uploadedMs < cutoff)).map
           fun o => o.key) from
    H (store.length - start) start (Nat.le_refl _)
  intro fuel
  induction fuel with
  | zero =>
    intro s hs
    unfold cleanupFrom
    simp only [listObjectsModel]
    rw [dif_neg (by omega)]
    have hlen : (store.drop s).length ≤ 1000 := by
      rw [List.length_drop]
      omega
    simp [List.take_of_length_le hlen]
  | succ fuel ih =>
    intro s hs
    unfold cleanupFrom
    simp only [listObjectsModel]
    by_cases h : s + 1000 < store.length
    · rw [dif_pos h, ih (s + 1000) (by omega)]
      have hsplit : store.drop s =
          (store.drop s).take 1000 ++ store.drop (s + 1000) := by
        rw [← List.drop_drop 1000 s store]
        exact (List.take_append_drop 1000 (store.drop s)).symm
      conv_rhs => rw [hsplit]
      simp only [Option.getD_some, List.filter_append, List.length_append,
        List.map_append]
    · rw [dif_neg h]
      have hlen : (store.drop s).length ≤ 1000 := by
        rw [List.length_drop]
        omega
      simp [List.take_of_length_le hlen]

/-- C6: cleanupOldImages pages through the whole listing and deletes
exactly the objects uploaded strictly before now minus the requested days,
reporting their number; in particular a 31-day-old object is deleted by a
30-day cleanup while a 1-day-old one is kept, with deletedCount 1. -/
theorem cleanupDeletesExactlyOld :
    (∀ (store : List StoredObject) (nowMs olderThanDays : Int),
      cleanupOldImages store nowMs olderThanDays =
        ((store.filter fun o =>
            decide (o.uploadedMs < nowMs - olderThanDays * msPerDay)).length,
         (store.filter fun o =>
            decide (o.uploadedMs < nowMs - olderThanDays * msPerDay)).map
           fun o => o.key)) ∧
    cleanupOldImages
      [{ key := "charts/old.png", size := 1, etag := "e1",
         uploadedMs := 1700000000000 - 31 * 86400000,
         uploadedAt := { year := 2023, month := 10, day := 15, hour := 0,
                         minute := 0, second := 0, millis := 0 },
         customMetadata := none },
       { key := "charts/fresh.png", size := 1, etag := "e2",
         uploadedMs := 1700000000000 - 1 * 86400000,
         uploadedAt := { year := 2023, month := 11, day := 13, hour := 0,
                         minute := 0, second := 0, millis := 0 },
         customMetadata := none }] 1700000000000 30 =
      (1, ["charts/old.png"]) := by
  have main : ∀ (store : List StoredObject) (nowMs olderThanDays : Int),
      cleanupOldImages store nowMs olderThanDays =
        ((store.filter fun o =>
            decide (o.uploadedMs < nowMs - olderThanDays * msPerDay)).length,
         (store.filter fun o =>
            decide (o.uploadedMs < nowMs - olderThanDays * msPerDay)).map
           fun o => o.key) := by
    intro store nowMs olderThanDays
    unfold cleanupOldImages
    rw [cleanupFrom_eq]
    rfl
  refine ⟨main, ?_⟩
  rw [main]
  decide

/-! ### C5: storage key derivation -/

/-- C5: generateFileName returns exactly charts/ then the ISO timestamp
with every colon and dot replaced by a dash, an underscore, the symbol
with every non-alphanumeric character replaced by an underscore, then
interval, theme and widthxheight separated by underscores, ending in dot
png; and the key is a deterministic function of these inputs. -/
theorem generateFileNameFormat :
    (∀ (symbol : String) (metadata : UploadMeta),
      StorageService.generateFileName symbol metadata =
        "charts/" ++
          String.mk ((toISOString metadata.generatedAt).data.map
            fun c => if c = ':' ∨ c = '.' then '-' else c) ++ "_" ++
          String.mk (symbol.data.map fun c => if c.isAlphanum then c else '_') ++
          "_" ++ metadata.interval ++ "_" ++ metadata.theme ++ "_" ++
          (toString metadata.width ++ "x" ++ toString metadata.height) ++
          ".png") ∧
    (∀ (s₁ s₂ : String) (m₁ m₂ : UploadMeta), s₁ = s₂ → m₁ = m₂ →
      StorageService.generateFileName s₁ m₁ =
        StorageService.generateFileName s₂ m₂) := by
  constructor
  · intro symbol metadata
    unfold StorageService.generateFileName replaceColonsDots replaceNonAlphanum
    have hfun : (fun c : Char => if c == ':' || c == '.' then '-' else c) =
        fun c : Char => if c = ':' ∨ c = '.' then '-' else c := by
      funext c
      simp [Bool.or_eq_true, beq_iff_eq]
    rw [hfun]
  · intro s₁ s₂ m₁ m₂ hs hm
    rw [hs, hm]

/-- Witness for C5: the key of a concrete request, computed twice and once
against the literal form of the formula. -/
theorem generateFileNameFormat_witness :
    StorageService.generateFileName "RAYDIUM:SOL/USDC"
        { interval := "1D", theme := "dark", width := 800, height := 600,
          generatedAt := { year := 2024, month := 1, day := 2, hour := 3,
                           minute := 4, second := 5, millis := 6 } } =
      StorageService.generateFileName "RAYDIUM:SOL/USDC"
        { interval := "1D", theme := "dark", width := 800, height := 600,
          generatedAt := { year := 2024, month := 1, day := 2, hour := 3,
                           minute := 4, second := 5, millis := 6 } } ∧
    StorageService.generateFileName "RAYDIUM:SOL/USDC"
        { interval := "1D", theme := "dark", width := 800, height := 600,
          generatedAt := { year := 2024, month := 1, day := 2, hour := 3,
                           minute := 4, second := 5, millis := 6 } } =
      "charts/2024-01-02T03-04-05-006Z_RAYDIUM_SOL_USDC_1D_dark_800x600.png" :=
  ⟨generateFileNameFormat.2 _ _ _ _ rfl rfl,
   (generateFileNameFormat.1 "RAYDIUM:SOL/USDC"
      { interval := "1D", theme := "dark", width := 800, height := 600,
        generatedAt := { year := 2024, month := 1, day := 2, hour := 3,
                         minute := 4, second := 5, millis := 6 } }).trans
     (by decide)⟩

/-! ### C2: interval validation layers -/

/-- Counterexample to C2: the interval 2m is outside the whitelist, yet
the domain service validateBusinessRules accepts the request - the domain
layer performs no interval check at all, only the adapter rejects. -/
theorem domainLayerIntervalCheck_cex :
    isValidInterval "2m" = false ∧
    validateBusinessRules
      { symbol := "RAYDIUM:SOL/USDC", interval := "2m", width := 800,
        height := 600, theme := "dark" } = .ok () := by
  constructor
  · decide
  · rfl

/-- C2 as amended: for every interval outside the whitelist, the adapter
validateRequest rejects with a ChartImageValidationError before any HTTP
call; the domain service validateBusinessRules does not inspect the
interval (its outcome is unchanged by it); and a request passing business
validation makes createSnapshot fail with a ChartValidationError for every
provider outcome, that is before the HTTP call. -/
theorem badIntervalRejectedByAdapterOnly (request : ChartSnapshotRequest)
    (provider : Except ThrownError ProviderImage) (now : JsDate)
    (hbad : isValidInterval request.interval = false) :
    (∃ m, validateRequest (mapToChartImageRequest request) =
      .error (.chartImageValidation m)) ∧
    (∀ i, validateBusinessRules { request with interval := i } =
      validateBusinessRules request) ∧
    (validateBusinessRules request = .ok () →
      ∃ m, createSnapshot request provider now = .error (.chartValidation m)) := by
  have hadapter : ∃ m, validateRequest (mapToChartImageRequest request) =
      .error (.chartImageValidation m) := by
    unfold validateRequest mapToChartImageRequest
    split
    · exact ⟨_, rfl⟩
    · split
      · exact ⟨_, rfl⟩
      · split
        · exact ⟨_, rfl⟩
        · split
          · exact ⟨_, rfl⟩
          · rename_i hval
            exact absurd (by simpa using hbad) hval
  refine ⟨hadapter, ?_, ?_⟩
  · intro i
    cases request
    rfl
  · intro hok
    rcases hadapter with ⟨m, hm⟩
    unfold createSnapshot generateChartImage
    rw [hok, hm]
    exact ⟨m, rfl⟩

/-- Witness for C2 as amended: a request on a supported exchange with the
unsupported interval 2m. -/
theorem badIntervalRejectedByAdapterOnly_witness :
    ∃ m, createSnapshot
        { symbol := "RAYDIUM:SOL/USDC", interval := "2m", width := 800,
          height := 600, theme := "dark" }
        (.ok { size := 4242, contentType := "image/png" })
        { year := 2024, month := 1, day := 2, hour := 3, minute := 4,
          second := 5, millis := 6 } = .error (.chartValidation m) :=
  (badIntervalRejectedByAdapterOnly
      { symbol := "RAYDIUM:SOL/USDC", interval := "2m", width := 800,
        height := 600, theme := "dark" }
      (.ok { size := 4242, contentType := "image/png" })
      { year := 2024, month := 1, day := 2, hour := 3, minute := 4,
        second := 5, millis := 6 }
      (by decide)).2.2 (by rfl)

/-! ### C1: blocklisted symbols

validateBusinessRules does throw a ChartValidationError for a blocklisted
symbol, but the catch block of createSnapshot only rewraps
ChartImageValidationError; its own ChartValidationError falls into the
catch-all and comes out as a ChartGenerationError, so the route answers
502, not the 400 the validation taxonomy of handleError assigns to
client-caused failures. -/

/-- C1, evaluated at the failing input: TEST:FOO is blocklisted and
validateBusinessRules raises a ChartValidationError naming it
unsupported, yet createSnapshot rewraps it into a ChartGenerationError
and POST image answers 502 - for every provider and storage outcome, so
before any external call. -/
theorem restrictedSymbolAnswers502 (provider : Except ThrownError ProviderImage)
    (putOutcome : Except ThrownError R2PutResult) (now : JsDate)
    (customDomain : String) :
    isRestrictedSymbol "TEST:FOO" = true ∧
    validateBusinessRules
      { symbol := "TEST:FOO", interval := "1D", width := 800, height := 600,
        theme := "dark" } =
      .error (.chartValidation "Symbol TEST:FOO is not supported") ∧
    createSnapshot
      { symbol := "TEST:FOO", interval := "1D", width := 800, height := 600,
        theme := "dark" } provider now =
      .error (.chartGeneration
        "Chart snapshot creation failed: Symbol TEST:FOO is not supported") ∧
    postImage
      { symbol := some "TEST:FOO", interval := none, width := none,
        height := none, theme := none }
      provider putOutcome now customDomain =
      { status := 502, success := false,
        error := some "Chart snapshot creation failed: Symbol TEST:FOO is not supported",
        fileName := none, publicUrl := none } :=
  ⟨by decide, rfl, rfl, rfl⟩

/-! ### C8: metadata round trip -/

/-- The ISO timestamp is never the empty string. -/
theorem toISOString_ne_empty (d : JsDate) : toISOString d ≠ "" := by
  intro h
  have hz : 'Z' ∈ (toISOString d).data := by
    simp [toISOString, String.data_append]
  rw [h] at hz
  exact absurd hz (by decide)

/-- The dimensions string always holds the x separator, so it is never
empty. -/
theorem dimensionsString_ne_empty (w h : Int) :
    toString w ++ "x" ++ toString h ≠ "" := by
  intro hEq
  have hx : 'x' ∈ (toString w ++ "x" ++ toString h).data := by
    simp [String.data_append]
  rw [hEq] at hx
  exact absurd hx (by decide)

/-- Counterexample to C8: an upload with the empty symbol carries all
five custom-metadata fields, yet parseStorageMetadata treats the empty
string as missing and returns undefined. -/
theorem metadataRoundTrip_cex :
    (∀ k ∈ ["symbol", "interval", "theme", "dimensions", "generatedAt"],
      ((uploadedObject ""
          { interval := "1D", theme := "dark", width := 800, height := 600,
            generatedAt := { year := 2024, month := 1, day := 2, hour := 3,
                             minute := 4, second := 5, millis := 6 } }
          1 "etag1" 0
          { year := 2024, month := 1, day := 2, hour := 3, minute := 4,
            second := 5, millis := 6 }).customMetadata.getD []).lookup k
        |>.isSome) ∧
    parseStorageMetadata
      (uploadedObject ""
        { interval := "1D", theme := "dark", width := 800, height := 600,
          generatedAt := { year := 2024, month := 1, day := 2, hour := 3,
                           minute := 4, second := 5, millis := 6 } }
        1 "etag1" 0
        { year := 2024, month := 1, day := 2, hour := 3, minute := 4,
          second := 5, millis := 6 }).customMetadata = none := by
  constructor
  · decide
  · decide

/-- C8 as amended: an object uploaded with nonempty symbol, interval and
theme round-trips - parseStorageMetadata recovers the five fields
(dimensions and generatedAt are never empty by construction); absent
custom metadata parses to undefined; a record missing any one of the five
keys parses to undefined; and the listed view model carries exactly the
parse of the stored custom metadata. -/
theorem metadataRoundTrip (symbol : String) (meta : UploadMeta) (sz : Nat)
    (etagVal : String) (ms : Int) (up : JsDate) (md : List (String × String))
    (hs : symbol ≠ "") (hi : meta.interval ≠ "") (ht : meta.theme ≠ "") :
    parseStorageMetadata
        ((uploadedObject symbol meta sz etagVal ms up).customMetadata) =
      some { symbol := symbol, interval := meta.interval, theme := meta.theme,
             dimensions := toString meta.width ++ "x" ++ toString meta.height,
             generatedAt := toISOString meta.generatedAt } ∧
    parseStorageMetadata none = none ∧
    (((md.lookup "symbol").isNone ∨ (md.lookup "interval").isNone ∨
        (md.lookup "theme").isNone ∨ (md.lookup "dimensions").isNone ∨
        (md.lookup "generatedAt").isNone) →
      parseStorageMetadata (some md) = none) ∧
    (∀ (o : StoredObject) (customDomain : String) (limit : Option Nat),
      (listChartImages [o] customDomain none limit none).images.map
          (fun i => i.metadata) =
        [parseStorageMetadata o.customMetadata]) := by
  refine ⟨?_, rfl, ?_, ?_⟩
  · simp only [uploadedObject, parseStorageMetadata, buildStorageMetadata,
      List.lookup]
    simp [hs, hi, ht, dimensionsString_ne_empty meta.width meta.height,
      toISOString_ne_empty meta.generatedAt]
  · intro hmiss
    unfold parseStorageMetadata
    rcases hmiss with h | h | h | h | h <;>
      rw [Option.isNone_iff_eq_none] at h <;>
      simp [h]
  · intro o customDomain limit
    have hpos : 1 ≤ jsOrNat limit 50 := by
      cases limit with
      | none => simp [jsOrNat]
      | some n =>
        simp only [jsOrNat]
        split
        · omega
        · rename_i hn
          simp only [beq_iff_eq] at hn
          omega
    unfold listChartImages listObjectsModel
    simp [List.take_of_length_le, hpos]

/-- Witness for C8 as amended: a concrete upload round-trips to the five
parsed fields. -/
theorem metadataRoundTrip_witness :
    parseStorageMetadata
        ((uploadedObject "RAYDIUM:SOL/USDC"
          { interval := "1D", theme := "dark", width := 800, height := 600,
            generatedAt := { year := 2024, month := 1, day := 2, hour := 3,
                             minute := 4, second := 5, millis := 6 } }
          1 "etag1" 0
          { year := 2024, month := 1, day := 2, hour := 3, minute := 4,
            second := 5, millis := 6 }).customMetadata) =
      some { symbol := "RAYDIUM:SOL/USDC", interval := "1D", theme := "dark",
             dimensions := "800x600",
             generatedAt := "2024-01-02T03:04:05.006Z" } :=
  (metadataRoundTrip "RAYDIUM:SOL/USDC"
    { interval := "1D", theme := "dark", width := 800, height := 600,
      generatedAt := { year := 2024, month := 1, day := 2, hour := 3,
                       minute := 4, second := 5, millis := 6 } }
    1 "etag1" 0
    { year := 2024, month := 1, day := 2, hour := 3, minute := 4,
      second := 5, millis := 6 }
    [] (by decide) (by decide) (by decide)).1

/-! ### C9: sorting by size -/

/-- The ascending size comparator accepts exactly the nondecreasing
pairs. -/
theorem sizeComparator_asc_le (a b : ImageDetails) :
    imageComparator .size .asc a b ≤ 0 ↔ a.size ≤ b.size := by
  unfold imageComparator imageCompare natCompareJs
  split_ifs <;> simp <;> omega

/-- The descending size comparator accepts exactly the nonincreasing
pairs. -/
theorem sizeComparator_desc_le (a b : ImageDetails) :
    imageComparator .size .desc a b ≤ 0 ↔ b.size ≤ a.size := by
  unfold imageComparator imageCompare natCompareJs
  split_ifs <;> simp <;> omega

/-- Stability of sortImages on the size key: the images of any one size
keep their input order, in both sort orders. -/
theorem sortImages_size_stable (images : List ImageDetails) (k : Nat)
    (ord : SortOrder) :
    (sortImages images .size ord).filter (fun i => i.size == k) =
      images.filter (fun i => i.size == k) := by
  have hpair : (images.filter fun i => i.size == k).Pairwise
      fun a b => imageComparator .size ord a b ≤ 0 := by
    apply List.pairwise_of_forall_mem_list
    intro x hx y hy
    have hxk : x.size = k := by simpa using (List.mem_filter.mp hx).2
    have hyk : y.size = k := by simpa using (List.mem_filter.mp hy).2
    cases ord with
    | asc => rw [sizeComparator_asc_le]; omega
    | desc => rw [sizeComparator_desc_le]; omega
  have hsub : (images.filter fun i => i.size == k).Sublist
      (List.insertionSort (fun a b => imageComparator .size ord a b ≤ 0) images) :=
    List.sublist_insertionSort hpair (List.filter_sublist images)
  have hsub2 : (images.filter fun i => i.size == k).Sublist
      ((List.insertionSort (fun a b => imageComparator .size ord a b ≤ 0)
        images).filter (fun i => i.size == k)) := by
    have h := List.Sublist.filter (fun i => i.size == k) hsub
    rwa [List.filter_filter, (by funext a; simp :
      (fun a : ImageDetails => (a.size == k) && (a.size == k)) =
        fun a : ImageDetails => a.size == k)] at h
  have hperm : ((List.insertionSort
        (fun a b => imageComparator .size ord a b ≤ 0) images).filter
          (fun i => i.size == k)).Perm
      (images.filter fun i => i.size == k) :=
    (List.perm_insertionSort _ images).filter _
  exact (hsub2.eq_of_length hperm.length_eq.symm).symm

/-- C9: sorting three images of pairwise distinct sizes ascending and
descending yields exact-reverse orders; getImageList defaults an omitted
sortOrder to descending; and ties are broken by input order (the sort is
stable). -/
theorem sortBySizeBehavior :
    (∀ a b c : ImageDetails, a.size ≠ b.size → a.size ≠ c.size →
      b.size ≠ c.size →
      sortImages [a, b, c] .size .asc =
        (sortImages [a, b, c] .size .desc).reverse) ∧
    (∀ (store : List StoredObject) (customDomain : String)
        (symbol : Option String) (limit : Option Nat) (cursor : Option Nat)
        (sb : SortBy),
      getImageList store customDomain
          { symbol := symbol, limit := limit, cursor := cursor,
            sortBy := some sb, sortOrder := none } =
        getImageList store customDomain
          { symbol := symbol, limit := limit, cursor := cursor,
            sortBy := some sb, sortOrder := some .desc }) ∧
    (∀ (images : List ImageDetails) (k : Nat) (ord : SortOrder),
      (sortImages images .size ord).filter (fun i => i.size == k) =
        images.filter (fun i => i.size == k)) := by
  refine ⟨?_, fun _ _ _ _ _ _ => rfl, sortImages_size_stable⟩
  intro a b c hab hac hbc
  rcases Nat.lt_trichotomy a.size b.size with h1 | h1 | h1
  · rcases Nat.lt_trichotomy b.size c.size with h2 | h2 | h2
    · have f1 : a.size ≤ b.size := by omega
      have f2 : a.size ≤ c.size := by omega
      have f3 : b.size ≤ c.size := by omega
      have g1 : ¬ b.size ≤ a.size := by omega
      have g2 : ¬ c.size ≤ a.size := by omega
      have g3 : ¬ c.size ≤ b.size := by omega
      simp [sortImages, List.insertionSort, List.orderedInsert,
        sizeComparator_asc_le, sizeComparator_desc_le, f1, f2, f3, g1, g2, g3]
    · exact absurd h2 hbc
    · rcases Nat.lt_trichotomy a.size c.size with h3 | h3 | h3
      · have f1 : a.size ≤ b.size := by omega
        have f2 : a.size ≤ c.size := by omega
        have f3 : c.size ≤ b.size := by omega
        have g1 : ¬ b.size ≤ a.size := by omega
        have g2 : ¬ c.size ≤ a.size := by omega
        have g3 : ¬ b.size ≤ c.size := by omega
        simp [sortImages, List.insertionSort, List.orderedInsert,
          sizeComparator_asc_le, sizeComparator_desc_le, f1, f2, f3, g1, g2, g3]
      · exact absurd h3 hac
      · have f1 : a.size ≤ b.size := by omega
        have f2 : c.size ≤ a.size := by omega
        have f3 : c.size ≤ b.size := by omega
        have g1 : ¬ b.size ≤ a.size := by omega
        have g2 : ¬ a.size ≤ c.size := by omega
        have g3 : ¬ b.size ≤ c.size := by omega
        simp [sortImages, List.insertionSort, List.orderedInsert,
          sizeComparator_asc_le, sizeComparator_desc_le, f1, f2, f3, g1, g2, g3]
  · exact absurd h1 hab
  · rcases Nat.lt_trichotomy b.size c.size with h2 | h2 | h2
    · rcases Nat.lt_trichotomy a.size c.size with h3 | h3 | h3
      · have f1 : b.size ≤ a.size := by omega
        have f2 : a.size ≤ c.size := by omega
        have f3 : b.size ≤ c.size := by omega
        have g1 : ¬ a.size ≤ b.size := by omega
        have g2 : ¬ c.size ≤ a.size := by omega
        have g3 : ¬ c.size ≤ b.size := by omega
        simp [sortImages, List.insertionSort, List.orderedInsert,
          sizeComparator_asc_le, sizeComparator_desc_le, f1, f2, f3, g1, g2, g3]
      · exact absurd h3 hac
      · have f1 : b.size ≤ a.size := by omega
        have f2 : c.size ≤ a.size := by omega
        have f3 : b.size ≤ c.size := by omega
        have g1 : ¬ a.size ≤ b.size := by omega
        have g2 : ¬ a.size ≤ c.size := by omega
        have g3 : ¬ c.size ≤ b.size := by omega
        simp [sortImages, List.insertionSort, List.orderedInsert,
          sizeComparator_asc_le, sizeComparator_desc_le, f1, f2, f3, g1, g2, g3]
    · exact absurd h2 hbc
    · have f1 : b.size ≤ a.size := by omega
      have f2 : c.size ≤ a.size := by omega
      have f3 : c.size ≤ b.size := by omega
      have g1 : ¬ a.size ≤ b.size := by omega
      have g2 : ¬ a.size ≤ c.size := by omega
      have g3 : ¬ b.size ≤ c.size := by omega
      simp [sortImages, List.insertionSort, List.orderedInsert,
        sizeComparator_asc_le, sizeComparator_desc_le, f1, f2, f3, g1, g2, g3]

/-- Witness for C9: three concrete images with pairwise distinct sizes. -/
theorem sortBySizeBehavior_witness :
    sortImages
        [{ fileName := "a.png", size := 30, uploadedAt := "", publicUrl := "",
           metadata := none, etag := "" },
         { fileName := "b.png", size := 10, uploadedAt := "", publicUrl := "",
           metadata := none, etag := "" },
         { fileName := "c.png", size := 20, uploadedAt := "", publicUrl := "",
           metadata := none, etag := "" }] .size .asc =
      (sortImages
        [{ fileName := "a.png", size := 30, uploadedAt := "", publicUrl := "",
           metadata := none, etag := "" },
         { fileName := "b.png", size := 10, uploadedAt := "", publicUrl := "",
           metadata := none, etag := "" },
         { fileName := "c.png", size := 20, uploadedAt := "", publicUrl := "",
           metadata := none, etag := "" }] .size .desc).reverse :=
  sortBySizeBehavior.1
    { fileName := "a.png", size := 30, uploadedAt := "", publicUrl := "",
      metadata := none, etag := "" }
    { fileName := "b.png", size := 10, uploadedAt := "", publicUrl := "",
      metadata := none, etag := "" }
    { fileName := "c.png", size := 20, uploadedAt := "", publicUrl := "",
      metadata := none, etag := "" }
    (by decide) (by decide) (by decide)

/-! ### C4: symbol prefix versus key layout -/

/-- A list of length four is four explicit elements. -/
theorem exists_four_of_length_eq (l : List Char) (hl : l.length = 4) :
    ∃ a b c d, l = [a, b, c, d] := by
  rcases l with _ | ⟨a, l⟩
  · simp at hl
  rcases l with _ | ⟨b, l⟩
  · simp at hl
  rcases l with _ | ⟨c, l⟩
  · simp at hl
  rcases l with _ | ⟨d, l⟩
  · simp at hl
  rcases l with _ | ⟨e, l⟩
  · exact ⟨a, b, c, d, rfl⟩
  · simp at hl

/-- Every character of the padded digit expansion is a digit. -/
theorem padDigits_natDigits_mem (w n : Nat) :
    ∀ c ∈ padDigits w (natDigits n), c ∈ "0123456789".data := by
  intro c hc
  rcases List.mem_append.mp hc with h | h
  · rw [List.eq_of_mem_replicate h]
    decide
  · exact natDigits_mem_digit n c h

/-- The four-digit year pad has length four for years up to 9999. -/
theorem padDigits_year_length (y : Nat) (h : y ≤ 9999) :
    (padDigits 4 (natDigits y)).length = 4 := by
  have hlen : (natDigits y).length ≤ 4 := natDigits_length_le 3 y (by omega)
  simp only [padDigits, List.length_append, List.length_replicate]
  omega

/-- A cleaned symbol never contains a dash. -/
theorem replaceNonAlphanum_no_dash (s : String) :
    ∀ c ∈ (replaceNonAlphanum s).data, c ≠ '-' := by
  intro c hc
  simp only [replaceNonAlphanum, List.mem_map] at hc
  rcases hc with ⟨c0, _, rfl⟩
  split
  · rename_i halnum
    intro hEq
    rw [hEq] at halnum
    exact absurd halnum (by decide)
  · decide

/-- A symbol containing a colon cleans to a list containing an
underscore. -/
theorem replaceNonAlphanum_has_underscore (s : String) (h : ':' ∈ s.data) :
    '_' ∈ (replaceNonAlphanum s).data := by
  simp only [replaceNonAlphanum, List.mem_map]
  exact ⟨':', h, by decide⟩

/-- The core mismatch: a list containing an underscore, free of dashes,
is no prefix of a list opening with four non-underscore characters and a
dash. -/
theorem cleanNotPrefix (C : List Char) (t0 t1 t2 t3 : Char) (tail : List Char)
    (h1 : ∀ c ∈ C, c ≠ '-') (h2 : '_' ∈ C)
    (ht0 : t0 ≠ '_') (ht1 : t1 ≠ '_') (ht2 : t2 ≠ '_') (ht3 : t3 ≠ '_') :
    ¬ C <+: t0 :: t1 :: t2 :: t3 :: '-' :: tail := by
  intro hpre
  rcases C with _ | ⟨x0, C⟩
  · simp at h2
  rw [List.cons_prefix_cons] at hpre
  obtain ⟨hx0, hpre⟩ := hpre
  rcases C with _ | ⟨x1, C⟩
  · simp at h2
    exact ht0 (by rw [← hx0]; exact h2.symm)
  rw [List.cons_prefix_cons] at hpre
  obtain ⟨hx1, hpre⟩ := hpre
  rcases C with _ | ⟨x2, C⟩
  · simp at h2
    rcases h2 with h2 | h2
    · exact ht0 (by rw [← hx0]; exact h2.symm)
    · exact ht1 (by rw [← hx1]; exact h2.symm)
  rw [List.cons_prefix_cons] at hpre
  obtain ⟨hx2, hpre⟩ := hpre
  rcases C with _ | ⟨x3, C⟩
  · simp at h2
    rcases h2 with h2 | h2 | h2
    · exact ht0 (by rw [← hx0]; exact h2.symm)
    · exact ht1 (by rw [← hx1]; exact h2.symm)
    · exact ht2 (by rw [← hx2]; exact h2.symm)
  rw [List.cons_prefix_cons] at hpre
  obtain ⟨hx3, hpre⟩ := hpre
  rcases C with _ | ⟨x4, C⟩
  · simp at h2
    rcases h2 with h2 | h2 | h2 | h2
    · exact ht0 (by rw [← hx0]; exact h2.symm)
    · exact ht1 (by rw [← hx1]; exact h2.symm)
    · exact ht2 (by rw [← hx2]; exact h2.symm)
    · exact ht3 (by rw [← hx3]; exact h2.symm)
  rw [List.cons_prefix_cons] at hpre
  obtain ⟨hx4, _⟩ := hpre
  exact h1 x4 (by simp) hx4

/-- Digits are unaffected by the colon-dot-to-dash replacement. -/
theorem digit_repl : ∀ c ∈ "0123456789".data,
    (if c == ':' || c == '.' then '-' else c) = c := by decide

/-- No digit is an underscore. -/
theorem digit_ne_underscore : ∀ c ∈ "0123456789".data, c ≠ '_' := by decide

/-- C4: for a symbol containing a colon, the generated key places the
timestamp between charts/ and the cleaned symbol while the filter prefix
expects the cleaned symbol right after charts/, so the key never starts
with getSymbolPrefix of the symbol; hence listChartImages filtered by the
symbol lists none of the objects uploadChartImage creates for it. -/
theorem symbolPrefixNeverMatchesKey (symbol : String) (metadata : UploadMeta)
    (hcolon : ':' ∈ symbol.data) (hvalid : metadata.generatedAt.Valid) :
    jsStartsWith (StorageService.generateFileName symbol metadata)
      (StorageService.getSymbolPrefix symbol) = false ∧
    (∀ (sz : Nat) (etagVal : String) (ms : Int) (up : JsDate)
        (customDomain : String) (limit cursor : Option Nat),
      (listChartImages [uploadedObject symbol metadata sz etagVal ms up]
        customDomain (some symbol) limit cursor).images = []) := by
  have hmain : jsStartsWith (StorageService.generateFileName symbol metadata)
      (StorageService.getSymbolPrefix symbol) = false := by
    obtain ⟨d0, d1, d2, d3, hd⟩ := exists_four_of_length_eq _
      (padDigits_year_length metadata.generatedAt.year hvalid.1)
    have hdig : ∀ c ∈ [d0, d1, d2, d3], c ∈ "0123456789".data := by
      rw [← hd]
      exact padDigits_natDigits_mem 4 metadata.generatedAt.year
    unfold jsStartsWith
    rw [Bool.eq_false_iff, Ne, startsWithL_iff]
    intro hpre
    unfold StorageService.generateFileName StorageService.getSymbolPrefix
      replaceColonsDots replaceNonAlphanum toISOString padNum at hpre
    simp only [String.data_append, List.append_assoc, hd,
      show "-".data = ['-'] from rfl, show "_".data = ['_'] from rfl,
      List.singleton_append, List.cons_append, List.nil_append,
      List.map_append, List.map_cons, List.map_nil,
      show (if ('-' == ':' || '-' == '.') = true then '-' else '-') = '-'
        from rfl,
      List.cons_prefix_cons, eq_self_iff_true, true_and] at hpre
    refine cleanNotPrefix _ _ _ _ _ _
      (fun c hc => replaceNonAlphanum_no_dash symbol c hc)
      (replaceNonAlphanum_has_underscore symbol hcolon)
      ?_ ?_ ?_ ?_ hpre
    · rw [digit_repl d0 (hdig d0 (by simp))]
      exact digit_ne_underscore d0 (hdig d0 (by simp))
    · rw [digit_repl d1 (hdig d1 (by simp))]
      exact digit_ne_underscore d1 (hdig d1 (by simp))
    · rw [digit_repl d2 (hdig d2 (by simp))]
      exact digit_ne_underscore d2 (hdig d2 (by simp))
    · rw [digit_repl d3 (hdig d3 (by simp))]
      exact digit_ne_underscore d3 (hdig d3 (by simp))
  refine ⟨hmain, ?_⟩
  intro sz etagVal ms up customDomain limit cursor
  unfold listChartImages listObjectsModel
  simp [uploadedObject, hmain]

/-- Witness for C4: the prefix filter of a concrete symbol misses the key
just generated for it. -/
theorem symbolPrefixNeverMatchesKey_witness :
    jsStartsWith
      (StorageService.generateFileName "RAYDIUM:SOL/USDC"
        { interval := "1D", theme := "dark", width := 800, height := 600,
          generatedAt := { year := 2024, month := 1, day := 2, hour := 3,
                           minute := 4, second := 5, millis := 6 } })
      (StorageService.getSymbolPrefix "RAYDIUM:SOL/USDC") = false :=
  (symbolPrefixNeverMatchesKey "RAYDIUM:SOL/USDC"
    { interval := "1D", theme := "dark", width := 800, height := 600,
      generatedAt := { year := 2024, month := 1, day := 2, hour := 3,
                       minute := 4, second := 5, millis := 6 } }
    (by decide) (by decide)).1
